import Mathlib

/-!
Shallow embedding of the tcp-stack repository core: sequence spaces and the
range-clamp helper (src/tcp/vars.rs), the TCP/IP header packet operations
(src/tcp/packet.rs), the connection handshake responder (src/tcp/connection.rs),
and the frame reader/writer with the demultiplexer key (src/reader_writer.rs).

Machine integers are modelled as `Nat` with explicit reduction modulo 2^32
where the Rust `u32` arithmetic wraps; byte buffers are `List Nat` of values
below 256; fallible operations return `Option` or `Except`; a Rust panic
(out-of-bounds index) is modelled as `Option.none`.
-/

namespace TcpStack

/-- Reduction modulo 2^32: the value of a Rust `u32` arithmetic result. -/
def wrap32 (n : Nat) : Nat := n % 4294967296

/-- Send Sequence Variables of the TCB block (src/tcp/vars.rs `SendSequenceSpace`).
Fields `wnd`, `up`, `wl1`, `wl2`, `iss` are carried for fidelity. -/
structure SendSequenceSpace where
  una : Nat
  nxt : Nat
  wnd : Nat
  up : Bool
  wl1 : Nat
  wl2 : Nat
  iss : Nat
deriving Repr, DecidableEq

/-- `SendSequenceSpace::from_seq_number(iss, wnd)`: `una = iss`, `nxt = iss + 1`
(u32 addition, hence mod 2^32), `up = false`, `wl1 = wl2 = 0`. -/
def SendSequenceSpace.from_seq_number (iss wnd : Nat) : SendSequenceSpace :=
  { una := iss, nxt := wrap32 (iss + 1), wnd := wnd, up := false, wl1 := 0, wl2 := 0, iss := iss }

/-- `#[derive(Default)]` for `SendSequenceSpace`: all fields zero / false. -/
def SendSequenceSpace.zero : SendSequenceSpace :=
  { una := 0, nxt := 0, wnd := 0, up := false, wl1 := 0, wl2 := 0, iss := 0 }

/-- `SendSequenceSpace::acceptable(ack_number)`: the source compares with the
plain `u32` order `self.una < ack_number && ack_number <= self.nxt`. -/
def SendSequenceSpace.acceptable (s : SendSequenceSpace) (ack_number : Nat) : Bool :=
  decide (s.una < ack_number) && decide (ack_number ≤ s.nxt)

/-- Receive Sequence Variables of the TCB block (src/tcp/vars.rs `ReceiveSequenceSpace`). -/
structure ReceiveSequenceSpace where
  nxt : Nat
  wnd : Nat
  up : Bool
  irs : Nat
deriving Repr, DecidableEq

/-- `ReceiveSequenceSpace::from_seq_number(seq_number, wnd)`: `nxt = seq_number + 1`
(u32 addition), `irs = seq_number`. -/
def ReceiveSequenceSpace.from_seq_number (seq_number wnd : Nat) : ReceiveSequenceSpace :=
  { nxt := wrap32 (seq_number + 1), wnd := wnd, up := false, irs := seq_number }

/-- `#[derive(Default)]` for `ReceiveSequenceSpace`: all fields zero / false. -/
def ReceiveSequenceSpace.zero : ReceiveSequenceSpace :=
  { nxt := 0, wnd := 0, up := false, irs := 0 }

/-- `ReceiveSequenceSpace::beginning_fall_in_wnd(seq_number)`: the source tests
`self.nxt <= seq_number && seq_number < self.nxt + self.wnd as u32` with plain
`u32` comparisons; the addition `nxt + wnd` wraps mod 2^32. -/
def ReceiveSequenceSpace.beginning_fall_in_wnd (r : ReceiveSequenceSpace) (seq_number : Nat) : Bool :=
  decide (r.nxt ≤ seq_number) && decide (seq_number < wrap32 (r.nxt + r.wnd))

/-- `ReceiveSequenceSpace::end_of_fall_in_wnd(seq_number, seq_len)`: the source
computes `seq = seq_number + seq_len - 1` in `u32` (wrapping; adding 2^32 - 1
is subtracting one mod 2^32) and tests `self.nxt <= seq && seq < self.nxt + self.wnd`. -/
def ReceiveSequenceSpace.end_of_fall_in_wnd (r : ReceiveSequenceSpace) (seq_number seq_len : Nat) : Bool :=
  let seq := wrap32 (seq_number + seq_len + 4294967295)
  decide (r.nxt ≤ seq) && decide (seq < wrap32 (r.nxt + r.wnd))

/-- `ensure_in_safe_range(data)` in src/tcp/vars.rs: `data % u32::max_value()`,
i.e. reduction modulo 2^32 - 1 = 4294967295, not modulo 2^32. -/
def ensure_in_safe_range (data : Nat) : Nat :=
  data % 4294967295

/-- TCP state of a connection (src/tcp/vars.rs `TcpState`). -/
inductive TcpState where
  | Closed
  | Listen
  | SynReceived
  | SynSent
  | Established
  | FinWait1
  | FinWait2
  | CloseWait
  | Closing
  | LastAck
  | TimeWait
deriving Repr, DecidableEq

/-- An IPv4 address as four octets (the external `std::net::Ipv4Addr`). -/
structure Ipv4Address where
  o1 : Nat
  o2 : Nat
  o3 : Nat
  o4 : Nat
deriving Repr, DecidableEq

/-- The scalar fields of a parsed inbound TCP header view
(`etherparse::TcpHeaderSlice`) that the core reads. -/
structure TcpHeaderSlice where
  source_port : Nat
  destination_port : Nat
  sequence_number : Nat
  acknowledgment_number : Nat
  window_size : Nat
  syn : Bool
deriving Repr, DecidableEq

/-- The scalar fields of a parsed inbound IPv4 header view
(`etherparse::Ipv4HeaderSlice`) that the core reads. -/
structure Ipv4HeaderSlice where
  source_addr : Ipv4Address
  destination_addr : Ipv4Address
deriving Repr, DecidableEq

/-- An outbound TCP header under construction (`etherparse::TcpHeader`),
restricted to the fields this core sets or sends. -/
structure TcpHeader where
  source_port : Nat
  destination_port : Nat
  sequence_number : Nat
  acknowledgment_number : Nat
  window_size : Nat
  syn : Bool
  ack : Bool
  fin : Bool
deriving Repr, DecidableEq

/-- `etherparse::TcpHeader::new(source_port, destination_port, sequence_number,
window_size)`: remaining fields start at zero / false. -/
def TcpHeader.new (source_port destination_port sequence_number window_size : Nat) : TcpHeader :=
  { source_port := source_port, destination_port := destination_port,
    sequence_number := sequence_number, acknowledgment_number := 0,
    window_size := window_size, syn := false, ack := false, fin := false }

/-- Header length of a TCP header without options, as produced by
`TcpHeader::new` in this codebase: 20 bytes. -/
def TcpHeader.header_len (_ : TcpHeader) : Nat := 20

/-- An outbound IPv4 header under construction (`etherparse::Ipv4Header`),
restricted to the fields this core sets. -/
structure Ipv4Header where
  payload_len : Nat
  time_to_live : Nat
  source : Ipv4Address
  destination : Ipv4Address
deriving Repr, DecidableEq

/-- `etherparse::Ipv4Header::new(payload_len, time_to_live, protocol, source,
destination)`; the protocol constant is fixed to IPv4 by every caller here. -/
def Ipv4Header.new (payload_len time_to_live : Nat) (source destination : Ipv4Address) : Ipv4Header :=
  { payload_len := payload_len, time_to_live := time_to_live,
    source := source, destination := destination }

/-- Header length of an IPv4 header without options, as produced by
`Ipv4Header::new` in this codebase: 20 bytes. -/
def Ipv4Header.header_len (_ : Ipv4Header) : Nat := 20

/-- Connection-level constants of src/tcp/connection.rs. -/
def DEFAULT_ISS : Nat := 0

/-- Default window size constant of src/tcp/connection.rs. -/
def DEFAULT_WINDOWS_SIZE : Nat := 1024

/-- Default TTL constant of src/tcp/connection.rs. -/
def DEFAULT_TIME_TO_LIVE : Nat := 64

/-- The outbound packet pair of src/tcp/packet.rs (`TcpIpHeader`). -/
structure TcpIpHeader where
  ip_header : Ipv4Header
  tcp_header : TcpHeader
deriving Repr, DecidableEq

/-- `TcpIpHeader::from_tcpip_header`. -/
def TcpIpHeader.from_tcpip_header (ip_header : Ipv4Header) (tcp_header : TcpHeader) : TcpIpHeader :=
  { ip_header := ip_header, tcp_header := tcp_header }

/-- `TcpIpHeader::with_rcv_tcpip_header(rcv_tcp_pkg, rcv_ip_pkg)`: builds the
response headers with ports and addresses swapped relative to the received
frame, sequence number `DEFAULT_ISS` and window `DEFAULT_WINDOWS_SIZE`. -/
def TcpIpHeader.with_rcv_tcpip_header (rcv_tcp_pkg : TcpHeaderSlice) (rcv_ip_pkg : Ipv4HeaderSlice) : TcpIpHeader :=
  let tcp := TcpHeader.new rcv_tcp_pkg.destination_port rcv_tcp_pkg.source_port
    DEFAULT_ISS DEFAULT_WINDOWS_SIZE
  let ip := Ipv4Header.new tcp.header_len DEFAULT_TIME_TO_LIVE
    rcv_ip_pkg.destination_addr rcv_ip_pkg.source_addr
  TcpIpHeader.from_tcpip_header ip tcp

/-- `TcpIpHeader::update_seq_number(snd_space, rcv_space)`: sets the outbound
sequence number to `snd_space.nxt` and the acknowledgment number to `rcv_space.nxt`. -/
def TcpIpHeader.update_seq_number (p : TcpIpHeader) (snd_space : SendSequenceSpace)
    (rcv_space : ReceiveSequenceSpace) : TcpIpHeader :=
  { p with tcp_header := { p.tcp_header with
      sequence_number := snd_space.nxt,
      acknowledgment_number := rcv_space.nxt } }

/-- `TcpIpHeader::handshake_resp()`: sets the SYN and ACK flags. -/
def TcpIpHeader.handshake_resp (p : TcpIpHeader) : TcpIpHeader :=
  { p with tcp_header := { p.tcp_header with syn := true, ack := true } }

/-- One TCP connection (src/tcp/connection.rs `TcpConnection`). -/
structure TcpConnection where
  state : TcpState
  timeout : Option Nat
  keep_alive : Option Nat
  send_seq : SendSequenceSpace
  recv_seq : ReceiveSequenceSpace
deriving Repr, DecidableEq

/-- `TcpConnection::from_recv_sequence(seq_number, wnd)`: fresh connection in
`Closed` with a defaulted send space and a receive space initialised from the
peer's sequence number. -/
def TcpConnection.from_recv_sequence (seq_number wnd : Nat) : TcpConnection :=
  { state := TcpState.Closed, timeout := none, keep_alive := none,
    send_seq := SendSequenceSpace.zero,
    recv_seq := ReceiveSequenceSpace.from_seq_number seq_number wnd }

/-- `TcpConnection::set_state`. -/
def TcpConnection.set_state (c : TcpConnection) (s : TcpState) : TcpConnection :=
  { c with state := s }

/-- The free function `handshake(conn, handshake_packet, writer)` of
src/tcp/connection.rs, as a transformation of the packet: sets SYN+ACK and
then the sequence/acknowledgment numbers from the connection's spaces.
The serialisation into the writer does not alter the packet. -/
def handshake (conn : TcpConnection) (handshake_packet : TcpIpHeader) : TcpIpHeader :=
  (handshake_packet.handshake_resp).update_seq_number conn.send_seq conn.recv_seq

/-- `TcpConnection::accept(iface, ip, tcp, data)`: the returned pair is the
created connection (if any) and the list of frames sent on the interface,
each frame identified by its header pair. A non-SYN segment returns
`Ok(None)` before any construction or send; a SYN builds the connection,
moves it through `Listen`, sends the single handshake response and leaves
the connection in `SynReceived`. -/
def TcpConnection.accept (ip : Ipv4HeaderSlice) (tcp : TcpHeaderSlice) :
    Option TcpConnection × List TcpIpHeader :=
  if !tcp.syn then (none, [])
  else
    let conn := (TcpConnection.from_recv_sequence tcp.sequence_number tcp.window_size).set_state
      TcpState.Listen
    let handshake_packet := handshake conn (TcpIpHeader.with_rcv_tcpip_header tcp ip)
    (some (conn.set_state TcpState.SynReceived), [handshake_packet])

/-- An endpoint: IPv4 address plus port (src/reader_writer.rs `Addr`). -/
structure Addr where
  ip : Ipv4Address
  port : Nat
deriving Repr, DecidableEq

/-- `Addr::new`. -/
def Addr.new (ip : Ipv4Address) (port : Nat) : Addr :=
  { ip := ip, port := port }

/-- The demultiplexer key (src/reader_writer.rs `Quad`): an ordered pair of
endpoints with fields named `src` and `dest`. -/
structure Quad where
  src : Addr
  dest : Addr
deriving Repr, DecidableEq

/-- `Quad::new(src, dest)`. -/
def Quad.new (src dest : Addr) : Quad :=
  { src := src, dest := dest }

/-- `Quad::from_tcpip_header(ip_header, tcp_header)`: the source builds
`Quad::new(Addr::new(source_addr, source_port), Addr::new(destination_addr,
destination_port))` from the inbound frame's own fields. -/
def Quad.from_tcpip_header (ip_header : Ipv4HeaderSlice) (tcp_header : TcpHeaderSlice) : Quad :=
  Quad.new (Addr.new ip_header.source_addr tcp_header.source_port)
    (Addr.new ip_header.destination_addr tcp_header.destination_port)

/-- The inbound frame reader (src/reader_writer.rs `RawReader`): a byte buffer,
the configured link-layer offset, the read length, and the cached payload
start offset (`None` until the first successful header parse). -/
structure RawReader where
  offset : Nat
  buf : List Nat
  len : Nat
  data_offset : Option Nat
deriving Repr, DecidableEq

/-- `RawReader::is_ipv4_packet`: reads `self.buf[self.offset + 0]` and shifts
right by four. Indexing out of bounds is a Rust panic, modelled as `none`. -/
def RawReader.is_ipv4_packet (r : RawReader) : Option Bool :=
  match r.buf[r.offset + 0]? with
  | none => none
  | some value => some (decide (value / 16 = 4))

/-- `RawReader::is_ipv6_packet`: same access pattern, comparing the top nibble
with 6. -/
def RawReader.is_ipv6_packet (r : RawReader) : Option Bool :=
  match r.buf[r.offset + 0]? with
  | none => none
  | some value => some (decide (value / 16 = 6))

/-- The byte slice `self.buf[self.offset..self.len]` handed to the IPv4 parser. -/
def RawReader.ipv4_slice_bytes (r : RawReader) : List Nat :=
  (r.buf.take r.len).drop r.offset

/-- The byte slice `self.buf[self.offset + ip_h_len..self.len]` handed to the
TCP parser. -/
def RawReader.tcp_slice_bytes (r : RawReader) (ip_h_len : Nat) : List Nat :=
  (r.buf.take r.len).drop (r.offset + ip_h_len)

/-- `RawReader::tcp_ip_header`: parses the IPv4 header from the offset slice,
then the TCP header from the bytes after the IPv4 header, and caches the
payload start offset on first success. The two parsers are the external
etherparse slice parsers, taken as parameters returning a header view and the
length of its slice; they are pure functions of the input bytes. Returns the
header views with the updated reader (`&mut self` state passing). -/
def RawReader.tcp_ip_header {V W : Type}
    (ipv4_from_slice : List Nat → Option (V × Nat))
    (tcp_from_slice : List Nat → Option (W × Nat))
    (r : RawReader) : Option ((V × W) × RawReader) :=
  match ipv4_from_slice r.ipv4_slice_bytes with
  | none => none
  | some (ipheader, ip_h_len) =>
    match tcp_from_slice (r.tcp_slice_bytes ip_h_len) with
    | none => none
    | some (tcp_h, tcp_len) =>
      let r2 := if r.data_offset.isNone
        then { r with data_offset := some (r.offset + ip_h_len + tcp_len) }
        else r
      some ((ipheader, tcp_h), r2)

/-- The write error raised by `RawWriter::write_header`
(`etherparse::WriteError::SliceTooSmall`, carrying the required length). -/
inductive WriteError where
  | SliceTooSmall : Nat → WriteError
deriving Repr, DecidableEq

/-- The outbound frame writer (src/reader_writer.rs `RawWriter`). -/
structure RawWriter where
  offset : Nat
  buf : List Nat
  packet : TcpIpHeader
deriving Repr, DecidableEq

/-- `RawWriter::minimum_size`: `offset + ip_header.header_len() +
tcp_header.header_len() - 1`. -/
def RawWriter.minimum_size (w : RawWriter) : Nat :=
  w.offset + w.packet.ip_header.header_len + w.packet.tcp_header.header_len - 1

/-- `RawWriter::assert_range`: `self.buf.len() < self.minimum_size()`,
i.e. true when the buffer is too small. -/
def RawWriter.assert_range (w : RawWriter) : Bool :=
  decide (w.buf.length < w.minimum_size)

/-- `RawWriter::write_header`: the source returns
`Err(WriteError(SliceTooSmall(minimum_size)))` when `!self.assert_range()`
holds, and otherwise proceeds to serialise the IPv4 and TCP headers into the
buffer (`Ok`). The branch condition is transcribed exactly as written. -/
def RawWriter.write_header (w : RawWriter) : Except WriteError Unit :=
  if !w.assert_range then Except.error (WriteError.SliceTooSmall w.minimum_size)
  else Except.ok ()

/-- Modelled from the spec (section 4.2): modular sequence-number order for
acknowledgment acceptability, `una < ack_number <= nxt` read as distances from
`una` modulo 2^32. Stated from the spec's words for comparison with the
source's `SendSequenceSpace.acceptable`. -/
def ack_acceptable_modular (una ack_number nxt : Nat) : Bool :=
  let dist_ack := wrap32 (ack_number + 4294967296 - wrap32 una)
  let dist_nxt := wrap32 (nxt + 4294967296 - wrap32 una)
  decide (0 < dist_ack) && decide (dist_ack ≤ dist_nxt)

/-- Modelled from the spec (sections 4.2 and 8): membership of a sequence
number in the window `[nxt, nxt + wnd)` by modular distance from `nxt`.
Stated from the spec's words for comparison with the source's window tests. -/
def in_window_modular (nxt wnd seq : Nat) : Bool :=
  decide (wrap32 (seq + 4294967296 - wrap32 nxt) < wnd)

/-- C9: `ensure_in_safe_range` does not implement reduction modulo 2^32:
at the input 4294967295 (`u32::MAX`) it returns 0, whereas the value reduced
modulo 2^32 is 4294967295 itself. -/
theorem ensure_in_safe_range_not_mod32 :
    ensure_in_safe_range 4294967295 = 0 ∧
    4294967295 % 4294967296 = 4294967295 ∧
    ensure_in_safe_range 4294967295 ≠ 4294967295 % 4294967296 := by
  decide

/-- C2 counterexample: with `una = 4294967295` and `nxt = 0` (the wrapped
send space of `iss = u32::MAX`), the acknowledgment 0 is acceptable in the
spec's modular order but the source's `acceptable` returns false, because it
compares with the raw integer order. -/
theorem acceptable_not_modular_cex :
    (SendSequenceSpace.mk 4294967295 0 1024 false 0 0 4294967295).acceptable 0 = false ∧
    ack_acceptable_modular 4294967295 0 0 = true := by
  decide

/-- C2 amended: `SendSequenceSpace::acceptable(ack_number)` returns true if
and only if `una < ack_number` and `ack_number <= nxt` hold in the raw integer
order on the `u32` values, with no modular (distance-based) wraparound. -/
theorem acceptable_raw_order (s : SendSequenceSpace) (ack_number : Nat) :
    s.acceptable ack_number = true ↔ s.una < ack_number ∧ ack_number ≤ s.nxt := by
  simp [SendSequenceSpace.acceptable]

/-- C3: with `nxt = 0xFFFFFFFF`, `wnd = 4096`, a segment with `seq = 0` and
`len = 1` lies in the receive window by modular distance (the spec's and RFC
793's reading), yet both window tests of the source reject it: they compare
with the raw integer order, and `nxt + wnd` wraps to 4095 so the tested
interval is empty above `nxt`. -/
theorem wraparound_segment_rejected :
    (ReceiveSequenceSpace.mk 4294967295 4096 false 4294967294).beginning_fall_in_wnd 0 = false ∧
    (ReceiveSequenceSpace.mk 4294967295 4096 false 4294967294).end_of_fall_in_wnd 0 1 = false ∧
    in_window_modular 4294967295 4096 0 = true := by
  decide

/-- C4: the size check of `RawWriter::write_header` is inverted. With offset 0,
a 20-byte IPv4 header and a 20-byte TCP header, a 100-byte buffer (amply large:
100 is not below the 40 bytes needed) makes `write_header` return
`SliceTooSmall(39)`, while a 10-byte buffer (too small for the headers) makes
it proceed to the writes. -/
theorem write_header_inverted_check :
    (RawWriter.mk 0 (List.replicate 100 0)
        (TcpIpHeader.from_tcpip_header (Ipv4Header.new 20 64 (Ipv4Address.mk 10 0 0 1) (Ipv4Address.mk 10 0 0 2))
          (TcpHeader.new 80 5000 0 1024))).write_header =
      Except.error (WriteError.SliceTooSmall 39) ∧
    ¬ (100 < 0 + 20 + 20) ∧
    (RawWriter.mk 0 (List.replicate 10 0)
        (TcpIpHeader.from_tcpip_header (Ipv4Header.new 20 64 (Ipv4Address.mk 10 0 0 1) (Ipv4Address.mk 10 0 0 2))
          (TcpHeader.new 80 5000 0 1024))).write_header = Except.ok () ∧
    (10 < 0 + 20 + 20) :=
  ⟨rfl, by decide, rfl, by decide⟩

/-- C6 counterexample: at `iss = 0xFFFFFFFF` the initialised send space has
`nxt = 0` (wrapped), and `acceptable(iss + 1)` — the acknowledgment value
`(iss + 1) mod 2^32 = 0` — is false, because `acceptable` compares with the
raw integer order; the claim asserts it is true for every `iss`, including
`0xFFFFFFFF`. -/
theorem from_seq_number_wrap_cex :
    (SendSequenceSpace.from_seq_number 4294967295 10).acceptable (wrap32 (4294967295 + 1)) = false := by
  decide

/-- C6 amended: `SendSequenceSpace::from_seq_number(iss, wnd)` yields
`una = iss` and `nxt = (iss + 1) mod 2^32`, with `acceptable(iss)` false for
every `iss`, and `acceptable((iss + 1) mod 2^32)` true whenever
`iss ≠ 0xFFFFFFFF` (at `iss = 0xFFFFFFFF` it is false, see the counterexample);
`ReceiveSequenceSpace::from_seq_number(peer_iss, wnd)` yields `irs = peer_iss`
and `nxt = (peer_iss + 1) mod 2^32` for every `peer_iss`. -/
theorem from_seq_number_init_amended (iss wnd peer_iss peer_wnd : Nat)
    (hiss : iss < 4294967296) :
    (SendSequenceSpace.from_seq_number iss wnd).una = iss ∧
    (SendSequenceSpace.from_seq_number iss wnd).nxt = wrap32 (iss + 1) ∧
    (SendSequenceSpace.from_seq_number iss wnd).acceptable iss = false ∧
    (iss ≠ 4294967295 → (SendSequenceSpace.from_seq_number iss wnd).acceptable (wrap32 (iss + 1)) = true) ∧
    (ReceiveSequenceSpace.from_seq_number peer_iss peer_wnd).irs = peer_iss ∧
    (ReceiveSequenceSpace.from_seq_number peer_iss peer_wnd).nxt = wrap32 (peer_iss + 1) := by
  refine ⟨rfl, rfl, ?_, ?_, rfl, rfl⟩
  · simp [SendSequenceSpace.acceptable, SendSequenceSpace.from_seq_number]
  · intro hne
    have h1 : iss + 1 < 4294967296 := by omega
    simp [SendSequenceSpace.acceptable, SendSequenceSpace.from_seq_number, wrap32,
      Nat.mod_eq_of_lt h1]

/-- C6 witness: the amended statement instantiated at `iss = 5, wnd = 10,
peer_iss = 7, peer_wnd = 3`. -/
theorem from_seq_number_init_amended_witness :
    (5 : Nat) < 4294967296 ∧
    ((SendSequenceSpace.from_seq_number 5 10).una = 5 ∧
     (SendSequenceSpace.from_seq_number 5 10).nxt = wrap32 (5 + 1) ∧
     (SendSequenceSpace.from_seq_number 5 10).acceptable 5 = false ∧
     ((5 : Nat) ≠ 4294967295 → (SendSequenceSpace.from_seq_number 5 10).acceptable (wrap32 (5 + 1)) = true) ∧
     (ReceiveSequenceSpace.from_seq_number 7 3).irs = 7 ∧
     (ReceiveSequenceSpace.from_seq_number 7 3).nxt = wrap32 (7 + 1)) :=
  ⟨by decide, from_seq_number_init_amended 5 10 7 3 (by decide)⟩

/-- C7 counterexample: for the inbound frame with IP source 10.0.0.2, IP
destination 10.0.0.1, TCP source port 5000, destination port 80, the
constructed Quad's first (`src`, local-side) component is the frame's source
endpoint 10.0.0.2:5000 and not the frame's destination endpoint 10.0.0.1:80
as the claim's receiver-perspective reading requires. -/
theorem quad_receiver_perspective_cex :
    (Quad.from_tcpip_header
        (Ipv4HeaderSlice.mk (Ipv4Address.mk 10 0 0 2) (Ipv4Address.mk 10 0 0 1))
        (TcpHeaderSlice.mk 5000 80 1000 0 4096 true)).src ≠
      Addr.new (Ipv4Address.mk 10 0 0 1) 80 := by
  decide

/-- C7 amended: `Quad::from_tcpip_header` builds the key in frame order — the
`src` component is the frame's source endpoint and the `dest` component the
frame's destination endpoint (the sender's perspective, not swapped to the
receiver's). -/
theorem quad_from_tcpip_header_order (ip_header : Ipv4HeaderSlice) (tcp_header : TcpHeaderSlice) :
    Quad.from_tcpip_header ip_header tcp_header =
      Quad.new (Addr.new ip_header.source_addr tcp_header.source_port)
        (Addr.new ip_header.destination_addr tcp_header.destination_port) := rfl

/-- C8 counterexample: on an empty buffer with offset 0 the classification
reads `buf[0]`, which is out of bounds — a Rust panic, modelled as `none` —
so classification is not total on every buffer and offset. -/
theorem is_ipv4_short_buffer_cex :
    (RawReader.mk 0 [] 0 none).is_ipv4_packet = none := by
  decide

/-- C8 amended: whenever the byte at the configured offset exists, the
classification tests never error: each returns a classification determined
only by the top nibble of that byte. -/
theorem classify_total_in_bounds (r : RawReader) (value : Nat)
    (h : r.buf[r.offset + 0]? = some value) :
    r.is_ipv4_packet = some (decide (value / 16 = 4)) ∧
    r.is_ipv6_packet = some (decide (value / 16 = 6)) := by
  constructor <;>
    (simp only [RawReader.is_ipv4_packet, RawReader.is_ipv6_packet]; rw [h])

/-- C8 witness: the amended statement at the one-byte buffer `[0x45]` with
offset 0: the byte exists, the top nibble is 4, and the tests classify it as
IPv4 and not IPv6. -/
theorem classify_total_in_bounds_witness :
    (RawReader.mk 0 [69] 1 none).buf[(RawReader.mk 0 [69] 1 none).offset + 0]? = some 69 ∧
    ((RawReader.mk 0 [69] 1 none).is_ipv4_packet = some (decide (69 / 16 = 4)) ∧
     (RawReader.mk 0 [69] 1 none).is_ipv6_packet = some (decide (69 / 16 = 6))) :=
  ⟨by decide, classify_total_in_bounds (RawReader.mk 0 [69] 1 none) 69 (by decide)⟩

/-- C1: on an inbound segment with the SYN flag set, `accept` returns a new
connection in `SynReceived` whose receive space has `irs` equal to the
segment's sequence number and `nxt` that number plus one (mod 2^32), and sends
exactly one response frame, with SYN and ACK both set and acknowledgment
number `irs + 1` (mod 2^32). -/
theorem accept_syn_creates_synreceived (ip : Ipv4HeaderSlice) (tcp : TcpHeaderSlice)
    (hsyn : tcp.syn = true) :
    ∃ conn pkt, TcpConnection.accept ip tcp = (some conn, [pkt]) ∧
      conn.state = TcpState.SynReceived ∧
      conn.recv_seq.irs = tcp.sequence_number ∧
      conn.recv_seq.nxt = wrap32 (tcp.sequence_number + 1) ∧
      pkt.tcp_header.syn = true ∧
      pkt.tcp_header.ack = true ∧
      pkt.tcp_header.acknowledgment_number = wrap32 (conn.recv_seq.irs + 1) := by
  refine ⟨((TcpConnection.from_recv_sequence tcp.sequence_number tcp.window_size).set_state
      TcpState.Listen).set_state TcpState.SynReceived,
    handshake ((TcpConnection.from_recv_sequence tcp.sequence_number tcp.window_size).set_state
      TcpState.Listen) (TcpIpHeader.with_rcv_tcpip_header tcp ip),
    ?_, rfl, rfl, rfl, rfl, rfl, rfl⟩
  unfold TcpConnection.accept
  rw [hsyn]
  rfl

/-- C1 witness: Scenario A of the spec — SYN from 10.0.0.2:5000 to
10.0.0.1:80 with sequence number 1000 and window 4096. -/
theorem accept_syn_creates_synreceived_witness :
    (TcpHeaderSlice.mk 5000 80 1000 0 4096 true).syn = true ∧
    (∃ conn pkt, TcpConnection.accept
        (Ipv4HeaderSlice.mk (Ipv4Address.mk 10 0 0 2) (Ipv4Address.mk 10 0 0 1))
        (TcpHeaderSlice.mk 5000 80 1000 0 4096 true) = (some conn, [pkt]) ∧
      conn.state = TcpState.SynReceived ∧
      conn.recv_seq.irs = (TcpHeaderSlice.mk 5000 80 1000 0 4096 true).sequence_number ∧
      conn.recv_seq.nxt = wrap32 ((TcpHeaderSlice.mk 5000 80 1000 0 4096 true).sequence_number + 1) ∧
      pkt.tcp_header.syn = true ∧
      pkt.tcp_header.ack = true ∧
      pkt.tcp_header.acknowledgment_number = wrap32 (conn.recv_seq.irs + 1)) :=
  ⟨rfl, accept_syn_creates_synreceived
    (Ipv4HeaderSlice.mk (Ipv4Address.mk 10 0 0 2) (Ipv4Address.mk 10 0 0 1))
    (TcpHeaderSlice.mk 5000 80 1000 0 4096 true) rfl⟩

/-- C5: on an inbound segment whose SYN flag is unset, `accept` returns the
successful no-connection outcome: no connection is constructed and no frame
is sent on the interface. -/
theorem accept_non_syn_none (ip : Ipv4HeaderSlice) (tcp : TcpHeaderSlice)
    (hsyn : tcp.syn = false) :
    TcpConnection.accept ip tcp = (none, []) := by
  unfold TcpConnection.accept
  rw [hsyn]
  rfl

/-- C5 witness: Scenario C of the spec — an ACK-only segment (SYN unset) is
filtered with no connection created and nothing sent. -/
theorem accept_non_syn_none_witness :
    (TcpHeaderSlice.mk 5000 80 1000 77 4096 false).syn = false ∧
    TcpConnection.accept
        (Ipv4HeaderSlice.mk (Ipv4Address.mk 10 0 0 2) (Ipv4Address.mk 10 0 0 1))
        (TcpHeaderSlice.mk 5000 80 1000 77 4096 false) = (none, []) :=
  ⟨rfl, accept_non_syn_none
    (Ipv4HeaderSlice.mk (Ipv4Address.mk 10 0 0 2) (Ipv4Address.mk 10 0 0 1))
    (TcpHeaderSlice.mk 5000 80 1000 77 4096 false) rfl⟩

/-- Helper: a second header parse on a reader whose payload offset is already
cached succeeds with the same views and leaves the reader unchanged. -/
theorem tcp_ip_header_cached {V W : Type}
    (ipv4_from_slice : List Nat → Option (V × Nat))
    (tcp_from_slice : List Nat → Option (W × Nat))
    (r : RawReader) (ipheader : V) (ip_h_len : Nat) (tcp_h : W) (tcp_len : Nat)
    (hip : ipv4_from_slice r.ipv4_slice_bytes = some (ipheader, ip_h_len))
    (htcp : tcp_from_slice (r.tcp_slice_bytes ip_h_len) = some (tcp_h, tcp_len))
    (hd : r.data_offset.isNone = false) :
    RawReader.tcp_ip_header ipv4_from_slice tcp_from_slice r = some ((ipheader, tcp_h), r) := by
  simp [RawReader.tcp_ip_header, hip, htcp, hd]

/-- C10: if a header parse on a reader succeeds, parsing again on the updated
reader returns identical header views and the identical reader, the payload
start offset is cached after the first parse, and a previously cached offset
is returned unchanged. -/
theorem tcp_ip_header_idempotent {V W : Type}
    (ipv4_from_slice : List Nat → Option (V × Nat))
    (tcp_from_slice : List Nat → Option (W × Nat))
    (r r' : RawReader) (views : V × W)
    (h : RawReader.tcp_ip_header ipv4_from_slice tcp_from_slice r = some (views, r')) :
    RawReader.tcp_ip_header ipv4_from_slice tcp_from_slice r' = some (views, r') ∧
    r'.data_offset.isSome = true ∧
    (∀ d, r.data_offset = some d → r'.data_offset = some d) := by
  cases hip : ipv4_from_slice r.ipv4_slice_bytes with
  | none => simp [RawReader.tcp_ip_header, hip] at h
  | some v =>
    obtain ⟨ipheader, ip_h_len⟩ := v
    cases htcp : tcp_from_slice (r.tcp_slice_bytes ip_h_len) with
    | none => simp [RawReader.tcp_ip_header, hip, htcp] at h
    | some w2 =>
      obtain ⟨tcp_h, tcp_len⟩ := w2
      have hfst : RawReader.tcp_ip_header ipv4_from_slice tcp_from_slice r =
          some ((ipheader, tcp_h), if r.data_offset.isNone
            then { r with data_offset := some (r.offset + ip_h_len + tcp_len) } else r) := by
        simp [RawReader.tcp_ip_header, hip, htcp]
      rw [hfst] at h
      simp only [Option.some.injEq, Prod.mk.injEq] at h
      obtain ⟨hv, hr'⟩ := h
      subst hv
      cases hd : r.data_offset with
      | some d0 =>
        rw [hd] at hr'
        simp only [Option.isNone_some, Bool.false_eq_true, if_false] at hr'
        subst hr'
        refine ⟨?_, ?_, ?_⟩
        · simpa [hd] using hfst
        · rw [hd]; rfl
        · intro d hdd; rw [hd]; exact hdd
      | none =>
        rw [hd] at hr'
        simp only [Option.isNone_none, if_true] at hr'
        subst hr'
        refine ⟨?_, rfl, ?_⟩
        · exact tcp_ip_header_cached ipv4_from_slice tcp_from_slice _ ipheader ip_h_len
            tcp_h tcp_len hip htcp rfl
        · intro d hdd
          exact absurd hdd (by simp)

/-- C10 witness: concrete parsers that report the slice length as the view and
a fixed 20-byte header length, on a 60-byte buffer with link offset 4; the
first parse caches payload offset 44 and the second parse repeats the result. -/
theorem tcp_ip_header_idempotent_witness :
    RawReader.tcp_ip_header (fun l => some (l.length, 20)) (fun l => some (l.length + 1, 20))
        (RawReader.mk 4 (List.replicate 60 0) 60 none) =
      some (((56 : Nat), (37 : Nat)), RawReader.mk 4 (List.replicate 60 0) 60 (some 44)) ∧
    (RawReader.tcp_ip_header (fun l => some (l.length, 20)) (fun l => some (l.length + 1, 20))
        (RawReader.mk 4 (List.replicate 60 0) 60 (some 44)) =
      some (((56 : Nat), (37 : Nat)), RawReader.mk 4 (List.replicate 60 0) 60 (some 44)) ∧
     (RawReader.mk 4 (List.replicate 60 0) 60 (some 44)).data_offset.isSome = true ∧
     (∀ d, (RawReader.mk 4 (List.replicate 60 0) 60 none).data_offset = some d →
        (RawReader.mk 4 (List.replicate 60 0) 60 (some 44)).data_offset = some d)) :=
  ⟨rfl, tcp_ip_header_idempotent (fun l => some (l.length, 20)) (fun l => some (l.length + 1, 20))
    (RawReader.mk 4 (List.replicate 60 0) 60 none)
    (RawReader.mk 4 (List.replicate 60 0) 60 (some 44)) (56, 37) rfl⟩

end TcpStack
